import Mathlib

/-!
Shallow embedding of the snapshot-storage and rate-projection engine of
claude-usage (src/claude_usage/shared/storage.py,
src/claude_usage/code_mode/storage.py, src/claude_usage/console_mode/storage.py).

Timestamps are modelled as integers (seconds since epoch, as produced by
int(datetime.now().timestamp())); numeric measures (credits, dollars,
utilization) as rationals; the SQLite tables as lists of rows; Python
exceptions as an Except monad.  The wall clock is passed explicitly as a
parameter called now.
-/

/-- Python exceptions that the embedded code can raise. -/
inductive PyExn where
  | attributeError
deriving DecidableEq

/-- Result of calling BaseStorage.get_connection().  The method is decorated
with contextlib.contextmanager (shared/storage.py line 43), so a plain call
returns the generator context-manager object; the generator body that opens
the sqlite3 connection only runs when the object is entered with a
with-statement, which no caller in code_mode/storage.py or
console_mode/storage.py does. -/
inductive ConnHandle where
  | genCtxManager
deriving DecidableEq

/-- BaseStorage.get_connection called as a plain function (shared/storage.py
lines 43-64): yields the generator context-manager object. -/
def BaseStorage.get_connection : ConnHandle := ConnHandle.genCtxManager

/-- conn.cursor() on the value returned by get_connection(): the generator
context-manager object has no cursor attribute, so attribute lookup raises
AttributeError. -/
def ConnHandle.cursor : ConnHandle → Except PyExn Unit
  | ConnHandle.genCtxManager => Except.error PyExn.attributeError

/-- conn.close() on the value returned by get_connection(): the generator
context-manager object has no close attribute either, so this also raises
AttributeError. -/
def ConnHandle.close : ConnHandle → Except PyExn Unit
  | ConnHandle.genCtxManager => Except.error PyExn.attributeError

/-- Python try/finally: the body runs first, then the finalizer; an exception
raised by the finalizer replaces any outcome of the body. -/
def pyTryFinally {A : Type} (body : Except PyExn A) (fin : Except PyExn Unit) :
    Except PyExn A :=
  match fin with
  | Except.error e => Except.error e
  | Except.ok _ => body

/-- BaseStorage.HISTORY_RETENTION (shared/storage.py line 11): seven days of
history, in seconds, shared by both account-type variants. -/
def BaseStorage.HISTORY_RETENTION : Int := 604800

/-- an ISO-8601 timestamp string as consumed by the storage layer: isEmpty
models Python string falsiness, parsed models the result of
datetime.fromisoformat after stripping a +00:00 suffix (none when parsing
would raise ValueError), as seconds since epoch. -/
structure TimeStr where
  isEmpty : Bool
  parsed : Option Int
deriving DecidableEq

/-- the empty string, the default for a missing resets_at key. -/
def TimeStr.empty : TimeStr := { isEmpty := true, parsed := none }

/-- overage_data dict: used_credits is none when the key is absent
(dict.get falls back to 0). A value of Option.none at the dict level models a
falsy dict (None or empty). -/
structure OverageData where
  used_credits : Option ℚ
deriving DecidableEq

/-- the five_hour sub-dict of usage_data. -/
structure FiveHour where
  utilization : Option ℚ
  resets_at : Option TimeStr
deriving DecidableEq

/-- an empty five_hour dict, the default used by usage_data.get. -/
def FiveHour.empty : FiveHour := { utilization := none, resets_at := none }

/-- usage_data dict with its nested five_hour object. -/
structure UsageData where
  five_hour : Option FiveHour
deriving DecidableEq

/-- mtd_data dict with its total_cost_usd field. -/
structure MtdData where
  total_cost_usd : Option ℚ
deriving DecidableEq

/-- one row of the usage_snapshots table (timestamp INTEGER PRIMARY KEY,
credits_used INTEGER, utilization_percent REAL, resets_at TEXT). -/
structure CodeRow where
  timestamp : Int
  credits_used : ℚ
  utilization_percent : ℚ
  resets_at : TimeStr
deriving DecidableEq

/-- one row of the console_usage_snapshots table (timestamp INTEGER PRIMARY
KEY, mtd_cost REAL, workspace_costs_json TEXT). -/
structure ConsoleRow where
  timestamp : Int
  mtd_cost : ℚ
  workspace_costs_json : String
deriving DecidableEq

/-- INSERT OR REPLACE into usage_snapshots keyed on the timestamp primary
key: replaces any row with the same timestamp. -/
def upsertCode (table : List CodeRow) (row : CodeRow) : List CodeRow :=
  row :: table.filter (fun r => decide (r.timestamp ≠ row.timestamp))

/-- INSERT OR REPLACE into console_usage_snapshots keyed on the timestamp
primary key. -/
def upsertConsole (table : List ConsoleRow) (row : ConsoleRow) : List ConsoleRow :=
  row :: table.filter (fun r => decide (r.timestamp ≠ row.timestamp))

/-- the write path of CodeStorage.store_snapshot (code_mode/storage.py lines
66-79) as it would act on the table: INSERT OR REPLACE the new snapshot, then
DELETE FROM usage_snapshots WHERE timestamp < timestamp - HISTORY_RETENTION. -/
def storeSnapshotWriteCode (timestamp : Int) (credits_used utilization : ℚ)
    (resets_at : TimeStr) (table : List CodeRow) : List CodeRow :=
  let afterInsert := upsertCode table
    { timestamp := timestamp, credits_used := credits_used,
      utilization_percent := utilization, resets_at := resets_at }
  let cutoff := timestamp - BaseStorage.HISTORY_RETENTION
  afterInsert.filter (fun r => decide (cutoff ≤ r.timestamp))

/-- the write path of the console snapshot store (console_mode/storage.py
lines 43-58): INSERT OR REPLACE, then delete rows older than the retention
horizon. -/
def storeSnapshotWriteConsole (timestamp : Int) (mtd_cost : ℚ)
    (workspace_json : String) (table : List ConsoleRow) : List ConsoleRow :=
  let afterInsert := upsertConsole table
    { timestamp := timestamp, mtd_cost := mtd_cost,
      workspace_costs_json := workspace_json }
  let cutoff := timestamp - BaseStorage.HISTORY_RETENTION
  afterInsert.filter (fun r => decide (cutoff ≤ r.timestamp))

/-- CodeStorage.store_snapshot (code_mode/storage.py lines 50-91).  Returns
the boolean result together with the resulting usage_snapshots table.  The
falsy-input check is the guard on lines 52-53; the body acquires conn via
get_connection() (line 61, without with), so conn.cursor() on line 63 raises
AttributeError, conn.close() in the finally on line 83 raises AttributeError
as well, and the except clause on lines 87-91 converts the exception into a
False return with no write performed. -/
def CodeStorage.store_snapshot (overage_data : Option OverageData)
    (usage_data : Option UsageData) (now : Int) (table : List CodeRow) :
    Bool × List CodeRow :=
  if overage_data.isNone || usage_data.isNone then (false, table)
  else
    let timestamp := now
    let credits_used := ((overage_data.getD { used_credits := none }).used_credits).getD 0
    let five_hour := (usage_data.getD { five_hour := none }).five_hour.getD FiveHour.empty
    let utilization := five_hour.utilization.getD 0
    let resets_at := five_hour.resets_at.getD TimeStr.empty
    let conn := BaseStorage.get_connection
    let attempt : Except PyExn (Bool × List CodeRow) :=
      pyTryFinally
        (match conn.cursor with
         | Except.error e => Except.error e
         | Except.ok _ =>
             Except.ok (true, storeSnapshotWriteCode timestamp credits_used utilization resets_at table))
        conn.close
    match attempt with
    | Except.ok r => r
    | Except.error _ => (false, table)

/-- ConsoleStorage.store_console_snapshot (console_mode/storage.py lines
30-62).  The falsy-input guard is on lines 32-33; the write path has a
try/finally for conn.close() but no except clause, so the AttributeError
raised by conn.cursor() on the context-manager object (and again by
conn.close() in the finally) propagates to the caller. -/
def ConsoleStorage.store_console_snapshot (mtd_data : Option MtdData)
    (workspace_json : String) (now : Int) (table : List ConsoleRow) :
    Except PyExn (Bool × List ConsoleRow) :=
  if mtd_data.isNone then Except.ok (false, table)
  else
    let timestamp := now
    let mtd_cost := ((mtd_data.getD { total_cost_usd := none }).total_cost_usd).getD 0
    let conn := BaseStorage.get_connection
    pyTryFinally
      (match conn.cursor with
       | Except.error e => Except.error e
       | Except.ok _ =>
           Except.ok (true, storeSnapshotWriteConsole timestamp mtd_cost workspace_json table))
      conn.close

/-- the progressive lookback windows tried in increasing order
(code_mode/storage.py line 102 and console_mode/storage.py line 80):
30 minutes, 1 hour, 3 hours, 6 hours, 24 hours, 7 days, in seconds. -/
def windows : List Int := [1800, 3600, 10800, 21600, 86400, 604800]

/-- the SQL query SELECT timestamp, credits_used FROM usage_snapshots WHERE
timestamp >= cutoff ORDER BY timestamp ASC LIMIT 1: the row with the least
timestamp among those at or after the cutoff (timestamps are unique, being
the primary key). -/
def queryEarliestCode (table : List CodeRow) (cutoff : Int) : Option (Int × ℚ) :=
  (table.filter (fun r => decide (cutoff ≤ r.timestamp))).foldl
    (fun acc r =>
      match acc with
      | none => some (r.timestamp, r.credits_used)
      | some (t, c) => if r.timestamp < t then some (r.timestamp, r.credits_used) else some (t, c))
    none

/-- the same query against console_usage_snapshots, selecting timestamp and
mtd_cost. -/
def queryEarliestConsole (table : List ConsoleRow) (cutoff : Int) : Option (Int × ℚ) :=
  (table.filter (fun r => decide (cutoff ≤ r.timestamp))).foldl
    (fun acc r =>
      match acc with
      | none => some (r.timestamp, r.mtd_cost)
      | some (t, c) => if r.timestamp < t then some (r.timestamp, r.mtd_cost) else some (t, c))
    none

/-- the for-loop over the progressive windows in
CodeStorage.calculate_usage_rate (code_mode/storage.py lines 108-138), as it
would act given a working database cursor: for each window take the earliest
snapshot at or after the cutoff; skip to the next window when there is none
or when the elapsed time is zero; return 0 on a non-positive delta and the
per-hour rate otherwise; fall through to the None return on line 144 when
every window is exhausted. -/
def rateLoopCode (current : ℚ) (now : Int) (table : List CodeRow) :
    List Int → Option ℚ
  | [] => none
  | window :: rest =>
    let cutoff := now - window
    match queryEarliestCode table cutoff with
    | none => rateLoopCode current now table rest
    | some (old_timestamp, old_credits) =>
      let time_diff := now - old_timestamp
      if time_diff = 0 then rateLoopCode current now table rest
      else
        let credit_diff := current - old_credits
        if credit_diff ≤ 0 then some 0
        else some ((credit_diff / (time_diff : ℚ)) * 3600)

/-- the identical window loop of ConsoleAnalytics.calculate_console_mtd_rate
(console_mode/storage.py lines 86-115) over the console table. -/
def rateLoopConsole (current : ℚ) (now : Int) (table : List ConsoleRow) :
    List Int → Option ℚ
  | [] => none
  | window :: rest =>
    let cutoff := now - window
    match queryEarliestConsole table cutoff with
    | none => rateLoopConsole current now table rest
    | some (old_timestamp, old_cost) =>
      let time_diff := now - old_timestamp
      if time_diff = 0 then rateLoopConsole current now table rest
      else
        let cost_diff := current - old_cost
        if cost_diff ≤ 0 then some 0
        else some ((cost_diff / (time_diff : ℚ)) * 3600)

/-- CodeStorage.calculate_usage_rate (code_mode/storage.py lines 93-150).
Returns None immediately for a None current value (lines 95-96); otherwise
the try block acquires conn via get_connection() without with (line 104), so
cursor() on line 106 raises AttributeError before any window is queried,
conn.close() in the finally on line 141 raises AttributeError too, and the
except clause on lines 146-150 converts the exception to None. -/
def CodeStorage.calculate_usage_rate (current_credits : Option ℚ) (now : Int)
    (table : List CodeRow) : Option ℚ :=
  match current_credits with
  | none => none
  | some current =>
    let conn := BaseStorage.get_connection
    let attempt : Except PyExn (Option ℚ) :=
      pyTryFinally
        (match conn.cursor with
         | Except.error e => Except.error e
         | Except.ok _ => Except.ok (rateLoopCode current now table windows))
        conn.close
    match attempt with
    | Except.ok r => r
    | Except.error _ => none

/-- ConsoleAnalytics.calculate_console_mtd_rate (console_mode/storage.py
lines 71-127), with the same structure: None guard, connection acquired as a
plain call on line 82, AttributeError at cursor() on line 84, except clause
on lines 123-127 converting it to None. -/
def ConsoleAnalytics.calculate_console_mtd_rate (current_mtd_cost : Option ℚ)
    (now : Int) (table : List ConsoleRow) : Option ℚ :=
  match current_mtd_cost with
  | none => none
  | some current =>
    let conn := BaseStorage.get_connection
    let attempt : Except PyExn (Option ℚ) :=
      pyTryFinally
        (match conn.cursor with
         | Except.error e => Except.error e
         | Except.ok _ => Except.ok (rateLoopConsole current now table windows))
        conn.close
    match attempt with
    | Except.ok r => r
    | Except.error _ => none

/-- the projection dict returned by CodeAnalytics.project_usage
(code_mode/storage.py lines 223-228). -/
structure Projection where
  current_credits : ℚ
  projected_credits : ℚ
  rate_per_hour : ℚ
  hours_until_reset : ℚ
deriving DecidableEq

/-- CodeAnalytics.project_usage (code_mode/storage.py lines 195-231): after
the falsy-input guard it asks the storage for a rate (always None in the
actual code), returns None on a None rate, returns None on an empty or
unparseable resets_at string, returns None when the reset time is not in the
future (lines 216-217), and otherwise extrapolates linearly to the reset. -/
def CodeAnalytics.project_usage (overage_data : Option OverageData)
    (usage_data : Option UsageData) (now : Int) (table : List CodeRow) :
    Option Projection :=
  if overage_data.isNone || usage_data.isNone then none
  else
    let current_credits := ((overage_data.getD { used_credits := none }).used_credits).getD 0
    match CodeStorage.calculate_usage_rate (some current_credits) now table with
    | none => none
    | some rate =>
      let five_hour := (usage_data.getD { five_hour := none }).five_hour.getD FiveHour.empty
      let resets_at_str := five_hour.resets_at.getD TimeStr.empty
      if resets_at_str.isEmpty then none
      else
        match resets_at_str.parsed with
        | none => none
        | some reset_time =>
          let time_until_reset : Int := reset_time - now
          if time_until_reset ≤ 0 then none
          else
            let hours_until_reset : ℚ := (time_until_reset : ℚ) / 3600
            some { current_credits := current_credits,
                   projected_credits := current_credits + rate * hours_until_reset,
                   rate_per_hour := rate,
                   hours_until_reset := hours_until_reset }

/-- ConsoleAnalytics.project_console_eom_cost (console_mode/storage.py lines
129-141): None when any input is None, the current cost unchanged when
hours_until_eom is negative, and the linear extrapolation otherwise. -/
def ConsoleAnalytics.project_console_eom_cost (current_mtd_cost rate_per_hour
    hours_until_eom : Option ℚ) : Option ℚ :=
  if current_mtd_cost.isNone || rate_per_hour.isNone || hours_until_eom.isNone then none
  else
    let c := current_mtd_cost.getD 0
    let r := rate_per_hour.getD 0
    let h := hours_until_eom.getD 0
    if h < 0 then some c
    else some (c + r * h)

/-- CodeAnalytics.project_console_eom_cost (code_mode/storage.py lines
285-297), textually identical to the console variant. -/
def CodeAnalytics.project_console_eom_cost (current_mtd_cost rate_per_hour
    hours_until_eom : Option ℚ) : Option ℚ :=
  if current_mtd_cost.isNone || rate_per_hour.isNone || hours_until_eom.isNone then none
  else
    let c := current_mtd_cost.getD 0
    let r := rate_per_hour.getD 0
    let h := hours_until_eom.getD 0
    if h < 0 then some c
    else some (c + r * h)

/-- Claim C1 (code_bug evidence): on a table holding snapshots 20 minutes and
3 hours old, the progressive-window loop as written in the source would
return the rate from the 30-minute window (150 credits/hour, and 30
dollars/hour for the console variant), preferring the smallest window with
data; but the public rate estimators actually return none, because the
connection object obtained without a with-statement is a generator context
manager whose cursor() attribute lookup raises AttributeError before any
window is consulted. -/
theorem C1_progressive_window_fallback_bug :
    CodeStorage.calculate_usage_rate (some 100) 1000000
      [{ timestamp := 998800, credits_used := 50, utilization_percent := 25, resets_at := TimeStr.empty },
       { timestamp := 989200, credits_used := 10, utilization_percent := 5, resets_at := TimeStr.empty }]
      = none ∧
    rateLoopCode 100 1000000
      [{ timestamp := 998800, credits_used := 50, utilization_percent := 25, resets_at := TimeStr.empty },
       { timestamp := 989200, credits_used := 10, utilization_percent := 5, resets_at := TimeStr.empty }]
      windows = some 150 ∧
    ConsoleAnalytics.calculate_console_mtd_rate (some 20) 1000000
      [{ timestamp := 998800, mtd_cost := 10, workspace_costs_json := "[]" },
       { timestamp := 989200, mtd_cost := 2, workspace_costs_json := "[]" }] = none ∧
    rateLoopConsole 20 1000000
      [{ timestamp := 998800, mtd_cost := 10, workspace_costs_json := "[]" },
       { timestamp := 989200, mtd_cost := 2, workspace_costs_json := "[]" }]
      windows = some 30 := by
  refine ⟨rfl, ?_, rfl, ?_⟩ <;>
    norm_num [rateLoopCode, rateLoopConsole, queryEarliestCode, queryEarliestConsole,
      windows, List.filter, List.foldl]

/-- Claim C2: for every pair of inputs, valid or not, CodeStorage.store_snapshot
returns False and leaves the usage_snapshots table unchanged: the write path
calls cursor() directly on the generator context-manager object returned by
the contextmanager-decorated get_connection, the resulting AttributeError is
converted to a False return by the except clause, and no row is inserted or
deleted. -/
theorem C2_store_snapshot_always_false (overage_data : Option OverageData)
    (usage_data : Option UsageData) (now : Int) (table : List CodeRow) :
    CodeStorage.store_snapshot overage_data usage_data now table = (false, table) := by
  cases overage_data <;> cases usage_data <;> rfl

/-- Claim C3 (code_bug evidence): ConsoleStorage.store_console_snapshot, whose
write path has no except clause, raises AttributeError across its public
boundary on a fully valid input, contradicting the contract that snapshot
storage never raises; CodeStorage.store_snapshot on a valid input does return
False without raising (though it never succeeds either). -/
theorem C3_store_console_snapshot_raises :
    ConsoleStorage.store_console_snapshot (some { total_cost_usd := some 5 }) "[]" 5000000 []
      = Except.error PyExn.attributeError ∧
    CodeStorage.store_snapshot (some { used_credits := some 100 })
      (some { five_hour := some { utilization := some 50, resets_at := some { isEmpty := false, parsed := some 5018000 } } })
      5000000 [] = (false, []) := by
  exact ⟨rfl, rfl⟩

/-- Claim C4 counterexample: a projection call on the credits-by-reset
projector with a boundary timestamp in the past (reset parsed at 998200,
now 1000000) returns none, not the current value unchanged, refuting the
claim that the clamp holds for both projection operations. -/
theorem C4_projection_clamp_counterexample :
    CodeAnalytics.project_usage (some { used_credits := some 100 })
      (some { five_hour := some { utilization := some 50, resets_at := some { isEmpty := false, parsed := some 998200 } } })
      1000000
      [{ timestamp := 999100, credits_used := 40, utilization_percent := 20,
         resets_at := { isEmpty := false, parsed := some 998200 } }] = none := rfl

/-- Claim C4 (amended): for every projection call with a negative
hours-until-boundary, the end-of-month cost projection returns the current
value unchanged in both variants and does not throw; the credits-by-reset
projection (project_usage) instead returns none for a past boundary, as
shown at a concrete input. -/
theorem C4_projection_clamp (c r h : ℚ) (hneg : h < 0) :
    ConsoleAnalytics.project_console_eom_cost (some c) (some r) (some h) = some c ∧
    CodeAnalytics.project_console_eom_cost (some c) (some r) (some h) = some c ∧
    CodeAnalytics.project_usage (some { used_credits := some 7 })
      (some { five_hour := some { utilization := some 3, resets_at := some { isEmpty := false, parsed := some 900000 } } })
      950000 [] = none := by
  refine ⟨?_, ?_, rfl⟩ <;>
    simp [ConsoleAnalytics.project_console_eom_cost, CodeAnalytics.project_console_eom_cost,
      if_pos hneg]

/-- Claim C4 witness: the clamp theorem applied at current cost 42, rate 3,
hours -5. -/
theorem C4_projection_clamp_witness :
    ConsoleAnalytics.project_console_eom_cost (some 42) (some 3) (some (-5)) = some 42 := by
  have h := C4_projection_clamp 42 3 (-5) (by norm_num)
  exact h.1

/-- Claim C5 (code_bug evidence): with a prior snapshot holding a larger (or
equal) stored value than the current one, the window loop as written in the
source returns exactly 0; but the public rate estimators actually return
none, never reaching the delta comparison, because the connection object has
no cursor attribute. -/
theorem C5_nonpositive_delta_bug :
    rateLoopCode 50 3000000
      [{ timestamp := 2999100, credits_used := 100, utilization_percent := 50, resets_at := TimeStr.empty }]
      windows = some 0 ∧
    rateLoopCode 100 3000000
      [{ timestamp := 2999100, credits_used := 100, utilization_percent := 50, resets_at := TimeStr.empty }]
      windows = some 0 ∧
    CodeStorage.calculate_usage_rate (some 50) 3000000
      [{ timestamp := 2999100, credits_used := 100, utilization_percent := 50, resets_at := TimeStr.empty }]
      = none ∧
    ConsoleAnalytics.calculate_console_mtd_rate (some 5) 3000000
      [{ timestamp := 2999100, mtd_cost := 10, workspace_costs_json := "[]" }] = none := by
  refine ⟨?_, ?_, rfl, rfl⟩ <;>
    norm_num [rateLoopCode, queryEarliestCode, windows, List.filter, List.foldl]

/-- Claim C6 (code_bug evidence): a snapshot 700000 seconds old (beyond the
7-day retention horizon of 604800 seconds) survives a store_snapshot call
with valid data, because the call returns False without touching the table;
the write path as written in the source would have pruned it while inserting
the new row. -/
theorem C6_retention_bug :
    CodeStorage.store_snapshot (some { used_credits := some 500 })
      (some { five_hour := some { utilization := some 75, resets_at := some { isEmpty := false, parsed := some 6018000 } } })
      6000000
      [{ timestamp := 5300000, credits_used := 1, utilization_percent := 1, resets_at := TimeStr.empty }]
      = (false,
         [{ timestamp := 5300000, credits_used := 1, utilization_percent := 1, resets_at := TimeStr.empty }]) ∧
    storeSnapshotWriteCode 6000000 500 75 { isEmpty := false, parsed := some 6018000 }
      [{ timestamp := 5300000, credits_used := 1, utilization_percent := 1, resets_at := TimeStr.empty }]
      = [{ timestamp := 6000000, credits_used := 500, utilization_percent := 75,
           resets_at := { isEmpty := false, parsed := some 6018000 } }] := by
  refine ⟨rfl, ?_⟩
  norm_num [storeSnapshotWriteCode, upsertCode, BaseStorage.HISTORY_RETENTION, List.filter]

/-- Claim C7 (code_bug evidence): two store_snapshot calls in the same
wall-clock second with different values both return False and leave the
table empty, so no row at all exists for that timestamp, instead of the one
row with the second call's values that the claim requires; the write path as
written (INSERT OR REPLACE on the timestamp primary key) would have produced
exactly that single row. -/
theorem C7_idempotent_upsert_bug :
    CodeStorage.store_snapshot (some { used_credits := some 100 })
      (some { five_hour := some { utilization := some 80, resets_at := some { isEmpty := false, parsed := some 7010000 } } })
      7000000 [] = (false, []) ∧
    CodeStorage.store_snapshot (some { used_credits := some 200 })
      (some { five_hour := some { utilization := some 80, resets_at := some { isEmpty := false, parsed := some 7010000 } } })
      7000000 [] = (false, []) ∧
    storeSnapshotWriteCode 7000000 200 80 { isEmpty := false, parsed := some 7010000 }
      (storeSnapshotWriteCode 7000000 100 80 { isEmpty := false, parsed := some 7010000 } [])
      = [{ timestamp := 7000000, credits_used := 200, utilization_percent := 80,
           resets_at := { isEmpty := false, parsed := some 7010000 } }] := by
  refine ⟨rfl, rfl, ?_⟩
  norm_num [storeSnapshotWriteCode, upsertCode, BaseStorage.HISTORY_RETENTION, List.filter]

/-- Claim C8 (code_bug evidence): the end-to-end rate scenario of the spec; a
snapshot of 100 credits stored 1800 seconds ago with a current value of 200
would yield exactly 200 credits/hour from the loop as written (and 20
dollars/hour for the console variant), but both public estimators actually
return none because the cursor() call on the context-manager object raises
AttributeError first. -/
theorem C8_rate_formula_bug :
    rateLoopCode 200 2000000
      [{ timestamp := 1998200, credits_used := 100, utilization_percent := 50, resets_at := TimeStr.empty }]
      windows = some 200 ∧
    CodeStorage.calculate_usage_rate (some 200) 2000000
      [{ timestamp := 1998200, credits_used := 100, utilization_percent := 50, resets_at := TimeStr.empty }]
      = none ∧
    rateLoopConsole 20 2000000
      [{ timestamp := 1998200, mtd_cost := 10, workspace_costs_json := "[]" }] windows = some 20 ∧
    ConsoleAnalytics.calculate_console_mtd_rate (some 20) 2000000
      [{ timestamp := 1998200, mtd_cost := 10, workspace_costs_json := "[]" }] = none := by
  refine ⟨?_, rfl, ?_, rfl⟩ <;>
    norm_num [rateLoopCode, rateLoopConsole, queryEarliestCode, queryEarliestConsole,
      windows, List.filter, List.foldl]

/-- Claim C9 (code_bug evidence): with one snapshot at the current timestamp
(zero elapsed time) and one an hour older, the window loop as written skips
the 30-minute window rather than dividing by zero and returns the rate from
the 1-hour window; but the public estimators actually return none without
consulting any window, because the AttributeError on cursor() aborts the
search before the guard can ever run. -/
theorem C9_zero_elapsed_guard_bug :
    rateLoopCode 150 4000000
      [{ timestamp := 4000000, credits_used := 100, utilization_percent := 50, resets_at := TimeStr.empty },
       { timestamp := 3996400, credits_used := 50, utilization_percent := 25, resets_at := TimeStr.empty }]
      windows = some 100 ∧
    CodeStorage.calculate_usage_rate (some 150) 4000000
      [{ timestamp := 4000000, credits_used := 100, utilization_percent := 50, resets_at := TimeStr.empty },
       { timestamp := 3996400, credits_used := 50, utilization_percent := 25, resets_at := TimeStr.empty }]
      = none ∧
    rateLoopConsole 15 4000000
      [{ timestamp := 4000000, mtd_cost := 10, workspace_costs_json := "[]" },
       { timestamp := 3996400, mtd_cost := 5, workspace_costs_json := "[]" }] windows = some 10 ∧
    ConsoleAnalytics.calculate_console_mtd_rate (some 15) 4000000
      [{ timestamp := 4000000, mtd_cost := 10, workspace_costs_json := "[]" },
       { timestamp := 3996400, mtd_cost := 5, workspace_costs_json := "[]" }] = none := by
  refine ⟨?_, rfl, ?_, rfl⟩ <;>
    norm_num [rateLoopCode, rateLoopConsole, queryEarliestCode, queryEarliestConsole,
      windows, List.filter, List.foldl]

/-- Claim C10: for every projection call with non-null current value, rate and
non-negative hours until boundary, both end-of-month cost projectors return
exactly current_value plus rate_per_hour times hours_until_boundary. -/
theorem C10_projection_linearity (c r h : ℚ) (hh : 0 ≤ h) :
    ConsoleAnalytics.project_console_eom_cost (some c) (some r) (some h) = some (c + r * h) ∧
    CodeAnalytics.project_console_eom_cost (some c) (some r) (some h) = some (c + r * h) := by
  constructor <;>
    simp [ConsoleAnalytics.project_console_eom_cost, CodeAnalytics.project_console_eom_cost,
      if_neg (not_lt.mpr hh)]

/-- Claim C10 witness: the linearity theorem applied at current 10, rate 2,
hours 360 yields exactly 730 for both variants. -/
theorem C10_projection_linearity_witness :
    ConsoleAnalytics.project_console_eom_cost (some 10) (some 2) (some 360) = some 730 ∧
    CodeAnalytics.project_console_eom_cost (some 10) (some 2) (some 360) = some 730 := by
  have h := C10_projection_linearity 10 2 360 (by norm_num)
  refine ⟨?_, ?_⟩
  · rw [h.1]; norm_num
  · rw [h.2]; norm_num
